import Mathlib

/-!
Shallow embedding of the OpalWM compositing window manager (Rust) used to
check the natural-language specification against the sources.

Conventions:
- Rust `u8`/`u16`/`u32`/`usize` values are modelled as `Nat`; wrapping
  arithmetic is made explicit with `% 2^w` where the source can overflow.
- Fallible operations return `Except`; operations whose Rust code can panic
  (out-of-bounds indexing, `unwrap`, `expect`, failed `assert!`) return
  `Option`, with `Option.none` marking the panic.
- Field and function names follow the source (`src/framebuffer.rs`,
  `src/window.rs`, `src/mice.rs`, `src/com/listener.rs`,
  `opal-abi/src/com/...`).
-/

namespace OpalWM

/-! ## Pixels and alpha blending (src/framebuffer.rs) -/

/-- A pixel, memory order blue, green, red, alpha; each field is a `u8`
(values `< 256`). From `Pixel` in `src/framebuffer.rs`. -/
structure Pixel where
  blue : Nat
  green : Nat
  red : Nat
  alpha : Nat
  deriving DecidableEq, Repr

/-- Well-formedness: every channel fits in a `u8`, as the Rust types force. -/
def Pixel.Wf (p : Pixel) : Prop :=
  p.blue < 256 ∧ p.green < 256 ∧ p.red < 256 ∧ p.alpha < 256

instance (p : Pixel) : Decidable p.Wf := by unfold Pixel.Wf; infer_instance

/-- `Pixel::from_rgba` reorders (r, g, b, a) into (b, g, r, a). -/
def Pixel.from_rgba (r g b alpha : Nat) : Pixel :=
  { blue := b, green := g, red := r, alpha := alpha }

/-- `Pixel::from_hex` reinterprets an `u32` `0xAARRGGBB` as bytes b, g, r, a. -/
def Pixel.from_hex (rgb : Nat) : Pixel :=
  { blue := rgb % 256
    green := rgb / 256 % 256
    red := rgb / 65536 % 256
    alpha := rgb / 16777216 % 256 }

/-- `Pixel::blend` from `src/framebuffer.rs`. All channels are widened to
`u16`; products can overflow `u16`, which release-mode Rust wraps, hence the
explicit `% 65536`. The subtractions (`255 - src_alpha` and the alpha term)
cannot underflow for `u8` inputs, so truncated `Nat` subtraction is exact
there. The final casts `as u8` are the `% 256`. -/
def Pixel.blend (s other : Pixel) : Pixel :=
  let src_red := s.red
  let target_red := other.red
  let src_green := s.green
  let target_green := other.green
  let src_blue := s.blue
  let target_blue := other.blue
  let src_alpha := s.alpha
  let target_alpha := other.alpha
  let red := (src_red * src_alpha % 65536 +
      target_red * target_alpha % 65536 * (255 - src_alpha) % 65536) % 65536 / 255
  let green := (src_green * src_alpha % 65536 +
      target_green * target_alpha % 65536 * (255 - src_alpha) % 65536) % 65536 / 255
  let blue := (src_blue * src_alpha % 65536 +
      target_blue * target_alpha % 65536 * (255 - src_alpha) % 65536) % 65536 / 255
  let alpha := src_alpha + target_alpha - src_alpha * target_alpha % 65536 / 255
  { red := red % 256, green := green % 256, blue := blue % 256, alpha := alpha % 256 }

/-! ## Intersection rectangles (src/window.rs) -/

/-- `IntersectionPoint`: a rectangle in a window's local coordinates,
top-left inclusive, bottom-right exclusive. -/
structure IntersectionPoint where
  top_left_within : Nat × Nat
  bottom_right_within : Nat × Nat
  deriving DecidableEq, Repr

/-- `IntersectionPoint::none()`: the zero-area rectangle at the origin. -/
def IntersectionPoint.none : IntersectionPoint :=
  { top_left_within := (0, 0), bottom_right_within := (0, 0) }

def IntersectionPoint.width (p : IntersectionPoint) : Nat :=
  p.bottom_right_within.1 - p.top_left_within.1

def IntersectionPoint.height (p : IntersectionPoint) : Nat :=
  p.bottom_right_within.2 - p.top_left_within.2

def IntersectionPoint.x (p : IntersectionPoint) : Nat :=
  p.top_left_within.1

def IntersectionPoint.y (p : IntersectionPoint) : Nat :=
  p.top_left_within.2

/-- The `Add` impl for `IntersectionPoint`: componentwise min of the
top-left corners and max of the bottom-right corners. -/
def IntersectionPoint.add (a b : IntersectionPoint) : IntersectionPoint :=
  { top_left_within :=
      (min a.top_left_within.1 b.top_left_within.1,
       min a.top_left_within.2 b.top_left_within.2)
    bottom_right_within :=
      (max a.bottom_right_within.1 b.bottom_right_within.1,
       max a.bottom_right_within.2 b.bottom_right_within.2) }

/-- The `Sum` impl for `IntersectionPoint`: a left fold that starts from
`none` and replaces a `none` accumulator by the next element instead of
adding to it. -/
def IntersectionPoint.sumList (l : List IntersectionPoint) : IntersectionPoint :=
  l.foldl
    (fun results i => if results = IntersectionPoint.none then i else results.add i)
    IntersectionPoint.none

/-! ## Events (opal-abi/src/com/response/event.rs)

The checked-in `event.rs` declares `MouseChange`, `MouseLeave`, `MouseEnter`
and `WindowFocused`. `src/window.rs` additionally sends
`Event::WindowUnfocused`, and the spec lists it (§4.1); that revision of
`event.rs` is not in the sources, so the extra variant is modelled from the
spec. -/

/-- A window event. The first four variants are from `event.rs`; the
`WindowUnfocused` variant is modelled from the spec (§4.1), see above. -/
inductive MEvent where
  | MouseChange (buttons_changed : Bool) (held_buttons : Nat) (pos_x pos_y : Nat)
  | MouseLeave
  | MouseEnter (pos_x pos_y : Nat)
  | WindowFocused
  | WindowUnfocused
  deriving DecidableEq, Repr

/-! ## The window store (src/window.rs) -/

/-- `WindowKind`: overlay windows are always composited above normal ones. -/
inductive WindowKind where
  | Overlay
  | Normal
  deriving DecidableEq, Repr

/-- The geometric and session state of a `Window`. The pixel buffer, its
shared-memory key and the mapped resources are allocation side effects with
no bearing on the store's behaviour and are not part of the store model
(pixels are modelled separately with the framebuffer); `has_pipe` records
whether `com_pipe` is `Some`, which decides whether `send_event` delivers. -/
structure MWindow where
  pos_x : Nat
  pos_y : Nat
  width : Nat
  height : Nat
  has_pipe : Bool
  deriving DecidableEq, Repr

/-- `Window::new_filled_with` stores the given position and dimensions
unchanged (the fill pixel only initialises the pixel buffer). -/
def MWindow.new_filled_with (pos_x pos_y width height : Nat) : MWindow :=
  { pos_x := pos_x, pos_y := pos_y, width := width, height := height,
    has_pipe := false }

/-- `Window::with_com_pipe` attaches the client pipe used by `send_event`. -/
def MWindow.with_com_pipe (w : MWindow) : MWindow :=
  { w with has_pipe := true }

/-- `Window::send_event`: delivered only when a `com_pipe` is attached;
write failures are ignored, so delivery is the emission itself. -/
def MWindow.sendEvent (w : MWindow) (id : Nat) (event : MEvent) : List (Nat × MEvent) :=
  if w.has_pipe then [(id, event)] else []

/-- `DamageRegion`: a rectangle in framebuffer coordinates. -/
structure DamageRegion where
  pos_x : Nat
  pos_y : Nat
  width : Nat
  height : Nat
  deriving DecidableEq, Repr

/-- `Window::damage`: the window's current rectangle. -/
def MWindow.damage (w : MWindow) : DamageRegion :=
  { pos_x := w.pos_x, pos_y := w.pos_y, width := w.width, height := w.height }

/-- `DamageRegion::overlaps_with`: strict half-open overlap test returning
the covered part in the window's local coordinates. -/
def DamageRegion.overlaps_with (d : DamageRegion) (win : MWindow) :
    Option IntersectionPoint :=
  let d_x0 := d.pos_x
  let d_x1 := d.pos_x + d.width
  let d_y0 := d.pos_y
  let d_y1 := d.pos_y + d.height
  let w_x0 := win.pos_x
  let w_x1 := win.pos_x + win.width
  let w_y0 := win.pos_y
  let w_y1 := win.pos_y + win.height
  if (d_x0 < w_x1 ∧ d_x1 > w_x0) ∧ (d_y0 < w_y1 ∧ d_y1 > w_y0) then
    some { top_left_within := (max d_x0 w_x0 - w_x0, max d_y0 w_y0 - w_y0)
           bottom_right_within := (min d_x1 w_x1 - w_x0, min d_y1 w_y1 - w_y0) }
  else
    Option.none

/-- `MAX_WINDOW_ID`. -/
def MAX_WINDOW_ID : Nat := 1024

/-! The id bitmap `window_ids: [u128; 8]` is a list of eight `Nat`s, each a
`u128` word (values `< 2^128`). -/

/-- Inner loop of `Windows::add_id`: scan a row (a `u128`, `width = 128`
bits) for the first clear bit; continue with the next row otherwise. -/
def addIdAux : List Nat → Nat → Option (Nat × List Nat)
  | [], _ => Option.none
  | byte :: rest, row =>
    match (List.range 128).find? (fun col => ! byte.testBit col) with
    | some col => some (col + row * 128, (byte ||| (1 <<< col)) :: rest)
    | Option.none =>
      (addIdAux rest (row + 1)).map (fun r => (r.1, byte :: r.2))

/-- `Windows::add_id`: allocate the first free id in the bitmap. -/
def add_id (window_ids : List Nat) : Option (Nat × List Nat) :=
  addIdAux window_ids 0

/-- `Windows::remove_id`. The source computes
`width = size_of_val(&self.window_ids[0])`, which is the BYTE size of a
`u128`, i.e. 16 — not 128 bits as in `add_id` — so `row = id / 16` and
`col = id % 16` exactly as written. `self.window_ids[row]` is an indexing
into the 8-element array and panics (`Option.none`) when `row ≥ 8`. The bit
clear `*byte &= !(1 << col)` happens only when the bit is set, where it
equals subtracting `2^col`. Returns the success flag and the new bitmap. -/
def remove_id (window_ids : List Nat) (id : Nat) : Option (Bool × List Nat) :=
  if id ≥ MAX_WINDOW_ID then
    some (false, window_ids)
  else
    let width := 16
    let row := id / width
    let col := id % width
    match window_ids.get? row with
    | Option.none => Option.none
    | some byte =>
      if byte.testBit col then
        some (true, window_ids.set row (byte - (1 <<< col)))
      else
        some (false, window_ids)

/-- The window registry and compositor state (`Windows`). The
`FxHashMap<WinID, (Window, WindowKind)>` is an association list keyed by id;
the two `IndexSet`s are duplicate-free lists in insertion order. The
`SHOULD_REDRAW` atomic is a derived flag (set whenever damage is pushed)
and is omitted. -/
structure Windows where
  windows : List (Nat × MWindow × WindowKind)
  overlay_windows : List Nat
  normal_windows : List Nat
  window_ids : List Nat
  focused_window : Option Nat
  damaged_regions : List DamageRegion
  deriving DecidableEq, Repr

/-- `Windows::new()`. -/
def Windows.new : Windows :=
  { windows := [], overlay_windows := [], normal_windows := [],
    window_ids := List.replicate 8 0, focused_window := Option.none,
    damaged_regions := [] }

/-- `HashMap::get` on the association list. -/
def findWin : List (Nat × MWindow × WindowKind) → Nat → Option (MWindow × WindowKind)
  | [], _ => Option.none
  | (i, wv) :: rest, id => if i = id then some wv else findWin rest id

/-- `HashMap::insert` on the association list: replace or append. -/
def insertWin (l : List (Nat × MWindow × WindowKind)) (id : Nat)
    (v : MWindow × WindowKind) : List (Nat × MWindow × WindowKind) :=
  if (findWin l id).isSome then
    l.map (fun e => if e.1 = id then (id, v) else e)
  else
    l ++ [(id, v)]

/-- `Windows::insert_damage`: append the regions to the damage log. -/
def Windows.insert_damage (s : Windows) (regions : List DamageRegion) : Windows :=
  { s with damaged_regions := s.damaged_regions ++ regions }

/-- `Windows::set_focused`: always replaces the focus, sends
`WindowFocused` to the target, then `WindowUnfocused` to the previous focus
(which may be the same window), moves the id to the end of the matching
Z-list (`shift_remove` then `insert` on the `IndexSet`), and records the
window's rectangle as damage. Returns the success flag, the new store and
the emitted events in order. -/
def Windows.set_focused (s : Windows) (win_id : Nat) :
    Bool × Windows × List (Nat × MEvent) :=
  match findWin s.windows win_id with
  | Option.none => (false, s, [])
  | some (window, window_kind) =>
    let old_value := s.focused_window
    let s1 := { s with focused_window := some win_id }
    let evsFocused := window.sendEvent win_id MEvent.WindowFocused
    let damage0 := window.damage
    let evsUnfocused :=
      match old_value with
      | some old_id =>
        match findWin s.windows old_id with
        | some (win, _) => win.sendEvent old_id MEvent.WindowUnfocused
        | Option.none => []
      | Option.none => []
    let s2 :=
      match window_kind with
      | WindowKind.Normal =>
        { s1 with normal_windows := s1.normal_windows.erase win_id ++ [win_id] }
      | WindowKind.Overlay =>
        { s1 with normal_windows := s1.normal_windows.erase win_id
                  overlay_windows :=
                    if win_id ∈ s1.overlay_windows then s1.overlay_windows
                    else s1.overlay_windows ++ [win_id] }
    (true, s2.insert_damage [damage0], evsFocused ++ evsUnfocused)

/-- `Windows::unfocus_current`: clear the focus and, if the focused window
still exists, send it `WindowUnfocused` and record its damage. -/
def Windows.unfocus_current (s : Windows) : Windows × List (Nat × MEvent) :=
  match s.focused_window with
  | Option.none => (s, [])
  | some win_id =>
    let s1 := { s with focused_window := Option.none }
    match findWin s.windows win_id with
    | some (win, _) =>
      (s1.insert_damage [win.damage], win.sendEvent win_id MEvent.WindowUnfocused)
    | Option.none => (s1, [])

/-- Rust `usize::saturating_add_signed`, saturating at zero below. (The
saturation at `usize::MAX` has no counterpart at model scales.) -/
def satAddSigned (n : Nat) (d : Int) : Nat := (n + d).toNat

/-- `Windows::add_cord`: move a window by a signed delta, clamping the new
position to `[0, fb_width - width] × [0, fb_height - height]`. (The `usize`
subtractions `max_x - win.width` assume `win.width ≤ fb_width` and likewise
for the height, as everywhere in the source.) A `(0, 0)` delta returns
early; an unchanged clamped position skips the damage log. -/
def Windows.add_cord (fb_width fb_height : Nat) (s : Windows) (win_id : Nat)
    (x y : Int) : Option ((Nat × Nat) × Windows) :=
  match findWin s.windows win_id with
  | Option.none => Option.none
  | some (win, kind) =>
    if x = 0 ∧ y = 0 then
      some ((win.pos_x, win.pos_y), s)
    else
      let damage0 := win.damage
      let new_x := min (satAddSigned win.pos_x x) (fb_width - win.width)
      let new_y := min (satAddSigned win.pos_y y) (fb_height - win.height)
      if new_x = damage0.pos_x ∧ new_y = damage0.pos_y then
        some ((new_x, new_y), s)
      else
        let win1 := { win with pos_x := new_x, pos_y := new_y }
        let newMap :=
          s.windows.map (fun e => if e.1 = win_id then (win_id, (win1, kind)) else e)
        let s1 := { s with windows := newMap }
        some ((new_x, new_y), s1.insert_damage [damage0, win1.damage])

/-- `Windows::add_window`: allocate an id, insert the window, then either
focus it (`Normal`) or record damage and append to the overlay list
(`Overlay`). Returns the id (if the pool was not exhausted), the new store
and the emitted events. -/
def Windows.add_window (s : Windows) (window : MWindow) (kind : WindowKind) :
    Option Nat × Windows × List (Nat × MEvent) :=
  let damage := window.damage
  match add_id s.window_ids with
  | Option.none => (Option.none, s, [])
  | some (id, ids1) =>
    let s1 := { s with window_ids := ids1,
                       windows := insertWin s.windows id (window, kind) }
    match kind with
    | WindowKind.Normal =>
      let (_, s2, evs) := s1.set_focused id
      (some id, s2, evs)
    | WindowKind.Overlay =>
      let s2 := (s1.insert_damage [damage])
      (some id,
       { s2 with overlay_windows :=
           if id ∈ s2.overlay_windows then s2.overlay_windows
           else s2.overlay_windows ++ [id] },
       [])

/-- Inner loop of `Windows::window_in_contact` over the reversed normal
Z-list. A Z-list id missing from the map is an `expect` panic (outer
`Option.none`). -/
def windowInContactAux (windows : List (Nat × MWindow × WindowKind))
    (region : DamageRegion) : List Nat → Option (Option (Nat × IntersectionPoint))
  | [] => some Option.none
  | win_id :: rest =>
    match findWin windows win_id with
    | Option.none => Option.none
    | some (win, _) =>
      match region.overlaps_with win with
      | some point => some (some (win_id, point))
      | Option.none => windowInContactAux windows region rest

/-- `Windows::window_in_contact`: the topmost normal window overlapping the
probe rectangle, with the overlap in that window's local coordinates.
Overlay windows are not candidates. -/
def Windows.window_in_contact (s : Windows) (pos_x pos_y width height : Nat) :
    Option (Option (Nat × IntersectionPoint)) :=
  let region : DamageRegion :=
    { pos_x := pos_x, pos_y := pos_y, width := width, height := height }
  windowInContactAux s.windows region s.normal_windows.reverse

/-- `Windows::send_event`: `Err(())` (`Option.none`) when the id is not in
the map; otherwise the window's own `send_event` emission. The store is not
modified. -/
def Windows.send_event (s : Windows) (win_id : Nat) (event : MEvent) :
    Option (List (Nat × MEvent)) :=
  (findWin s.windows win_id).map (fun wv => wv.1.sendEvent win_id event)

/-- The `CreateWindow` request path in `handle_connect`
(src/com/listener.rs): build the window with the requested position and
size via `Window::new_filled_with`, attach the client pipe, and install it
with `add_window(.., Normal)`. No clamping happens on this path. -/
def create_window_request (s : Windows) (pos_x pos_y width height : Nat) :
    Option Nat × Windows × List (Nat × MEvent) :=
  s.add_window ((MWindow.new_filled_with pos_x pos_y width height).with_com_pipe)
    WindowKind.Normal

/-! ## Framebuffer draws (src/framebuffer.rs) -/

/-- A framebuffer: dimensions plus the `width * height` pixel array. -/
structure Framebuffer where
  width : Nat
  height : Nat
  pixels : List Pixel
  deriving DecidableEq, Repr

/-- The slice write `pixels[start..start + len].fill(pixel)`. Rust range
indexing panics (`Option.none`) when `start + len > pixels.len()`. -/
def fillRange (pixels : List Pixel) (start len : Nat) (pixel : Pixel) :
    Option (List Pixel) :=
  if start + len ≤ pixels.length then
    some (pixels.take start ++ List.replicate len pixel ++ pixels.drop (start + len))
  else
    Option.none

/-- The row loop of `Framebuffer::draw_rect_filled_with`: rows
`row, row + 1, ...` while `count` rows remain; each row is the unchecked
slice fill at `off_x + (off_y + row) * fbWidth`. -/
def fillRowsAux (fbWidth off_x off_y width : Nat) (pixel : Pixel) :
    List Pixel → Nat → Nat → Option (List Pixel)
  | pixels, _, 0 => some pixels
  | pixels, row, count + 1 =>
    let row_index := off_x + (off_y + row) * fbWidth
    match fillRange pixels row_index width pixel with
    | Option.none => Option.none
    | some pixels1 => fillRowsAux fbWidth off_x off_y width pixel pixels1 (row + 1) count

/-- `Framebuffer::draw_rect_filled_with`: fill `height` rows of `width`
pixels starting at `(off_x, off_y)`. There is no bounds check in the
source; an out-of-range row is a panic (`Option.none`). -/
def Framebuffer.draw_rect_filled_with (fb : Framebuffer)
    (off_x off_y width height : Nat) (pixel : Pixel) : Option Framebuffer :=
  (fillRowsAux fb.width off_x off_y width pixel fb.pixels 0 height).map
    (fun pixels1 => { fb with pixels := pixels1 })

/-! ## Packet codec (opal-abi/src/com)

Buffers are lists of bytes (`Nat < 256`). Integers on the wire are
little-endian and fixed-width (`bincode` config: fixed int encoding, limit
`MAX_PACKET_SIZE`). -/

/-- `MAX_PACKET_SIZE`. -/
def MAX_PACKET_SIZE : Nat := 256

/-- Little-endian bytes of a `u32`. -/
def u32le (n : Nat) : List Nat :=
  [n % 256, n / 256 % 256, n / 65536 % 256, n / 16777216 % 256]

/-- Read a little-endian `u32` off the front of a buffer, with the rest. -/
def readU32 : List Nat → Option (Nat × List Nat)
  | b0 :: b1 :: b2 :: b3 :: rest =>
    some (b0 + b1 * 256 + b2 * 65536 + b3 * 16777216, rest)
  | _ => Option.none

/-- `REQUEST_MAGIC`. -/
def REQUEST_MAGIC : Nat := 0xBCFEEDAD

/-- `RequestParseErr` from `opal-abi/src/com/request.rs`. -/
inductive RequestParseErr where
  | InvalidMagic
  | InvalidRequestKind
  | InvalidPacketSize
  deriving DecidableEq, Repr

/-- `RequestKind` from `opal-abi/src/com/request.rs` (`repr(u16)`, values
CreateWindow = 0, DamageWindow = 1, Ping = 2). -/
inductive RawRequestKind where
  | CreateWindow
  | DamageWindow
  | Ping
  deriving DecidableEq, Repr

/-- `TryFromBytes` validation of the `RequestKind` `u16` discriminant. -/
def decodeRawRequestKind (v : Nat) : Option RawRequestKind :=
  if v = 0 then some RawRequestKind.CreateWindow
  else if v = 1 then some RawRequestKind.DamageWindow
  else if v = 2 then some RawRequestKind.Ping
  else Option.none

/-- `RawRequest`: the validated header fields plus the 250 payload bytes. -/
structure RawRequest where
  kind : RawRequestKind
  data : List Nat
  deriving Repr

/-- The slice `bytes[start..start + len]`, panicking (`Option.none`) when it
is out of range. -/
def byteSlice (bytes : List Nat) (start len : Nat) : Option (List Nat) :=
  if start + len ≤ bytes.length then some ((bytes.drop start).take len)
  else Option.none

/-- `RawRequest::try_from_bytes`. `size_of::<RawRequest>() = 256` with
`repr(C)` offsets: header (the magic `u32`) at 0, kind (`u16`) at 4, data
(`[u8; 250]`) at 6. Any panic inside is the outer `Option.none`; parse
failures are `Except.error`. -/
def RawRequest.try_from_bytes (bytes : List Nat) :
    Option (Except RequestParseErr RawRequest) :=
  if bytes.length < 256 then
    some (Except.error RequestParseErr.InvalidPacketSize)
  else
    match byteSlice bytes 0 4, byteSlice bytes 4 2, byteSlice bytes 6 250 with
    | some header_bytes, some kind_bytes, some data_bytes =>
      match readU32 header_bytes with
      | Option.none => Option.none
      | some (magic, _) =>
        if magic ≠ REQUEST_MAGIC then
          some (Except.error RequestParseErr.InvalidMagic)
        else
          match kind_bytes with
          | [k0, k1] =>
            match decodeRawRequestKind (k0 + k1 * 256) with
            | Option.none => some (Except.error RequestParseErr.InvalidRequestKind)
            | some kind => some (Except.ok { kind := kind, data := data_bytes })
          | _ => Option.none
    | _, _, _ => Option.none

/-- `PacketParseErr` from `opal-abi/src/com/packet.rs`. -/
inductive PacketParseErr where
  | InvalidMagic
  | InvalidPacketKind
  | InvalidPacketSize
  | InvalidPacketData
  deriving DecidableEq, Repr

/-- `ResponseError` from `opal-abi/src/com/response/error.rs`. -/
inductive ResponseError where
  | InvalidMagic
  | InvalidRequestKind
  | PacketTooShort
  | InvalidData
  | UnknownFatalError
  | UnknownWindow
  deriving DecidableEq, Repr

/-- `From<PacketParseErr> for ResponseError`. -/
def ResponseError.from_packet : PacketParseErr → ResponseError
  | PacketParseErr.InvalidMagic => ResponseError.InvalidMagic
  | PacketParseErr.InvalidPacketSize => ResponseError.PacketTooShort
  | PacketParseErr.InvalidPacketKind => ResponseError.InvalidRequestKind
  | PacketParseErr.InvalidPacketData => ResponseError.InvalidData

/-- `From<RequestParseErr> for ResponseError`
(opal-abi/src/com/response.rs). -/
def ResponseError.from_request : RequestParseErr → ResponseError
  | RequestParseErr.InvalidMagic => ResponseError.InvalidMagic
  | RequestParseErr.InvalidPacketSize => ResponseError.PacketTooShort
  | RequestParseErr.InvalidRequestKind => ResponseError.InvalidRequestKind

/-- `OkResponse` (opal-abi/src/com/response/mod.rs). -/
inductive OkResponse where
  | Success
  | WindowCreated (shm_key : Nat) (win_id : Nat)
  deriving DecidableEq, Repr

/-- `Response` (opal-abi/src/com/response/mod.rs): `Ok` and `Err` carry the
explicit `repr(u32)` discriminants `0xA1EF00DD` and `0xBADF00DD`, which
`bincode` puts on the wire (the spec's §6 wire constants). The spec's §4.1
additionally has an `Event` arm with magic `0xADFEEDBC`, used by
`Response::Event(..)` in `src/window.rs`; that revision of the enum is not
in the sources, so the `Event` arm is modelled from the spec. -/
inductive Response where
  | Ok (k : OkResponse)
  | Err (e : ResponseError)
  | Event (ev : MEvent)
  deriving DecidableEq, Repr

/-- `RESPONSE_OK_MAGIC` (= the `Response::Ok` discriminant). -/
def RESPONSE_OK_MAGIC : Nat := 0xA1EF00DD

/-- The `Response::Err` discriminant. -/
def RESPONSE_ERR_MAGIC : Nat := 0xBADF00DD

/-- The `Response::Event` discriminant, modelled from the spec (§6). -/
def RESPONSE_EVENT_MAGIC : Nat := 0xADFEEDBC

/-- `bincode` variant index of `OkResponse` (no explicit discriminants,
encoded as a `u32` of the declaration index). -/
def OkResponse.encode : OkResponse → List Nat
  | OkResponse.Success => u32le 0
  | OkResponse.WindowCreated shm_key win_id =>
    u32le 1 ++
      -- CreateWindowResp { shm_key: usize (8 bytes LE), win_id: u16, __0: u16, __1: u32 }
      (u32le (shm_key % 4294967296) ++ u32le (shm_key / 4294967296)) ++
      [win_id % 256, win_id / 256 % 256] ++ [0, 0] ++ u32le 0

/-- `bincode` variant index of `ResponseError` (`u32` declaration index). -/
def ResponseError.discriminant : ResponseError → Nat
  | ResponseError.InvalidMagic => 0
  | ResponseError.InvalidRequestKind => 1
  | ResponseError.PacketTooShort => 2
  | ResponseError.InvalidData => 3
  | ResponseError.UnknownFatalError => 4
  | ResponseError.UnknownWindow => 5

/-- `bincode` encoding of `Event` (opal-abi/src/com/response/event.rs): the
`u32` variant index, then the payload fields in order. `bool` and the
`HeldMouseButtons` bitmask are single bytes; `__` is a `u16`. -/
def MEvent.encode : MEvent → List Nat
  | MEvent.MouseChange buttons_changed held_buttons pos_x pos_y =>
    u32le 0 ++ [if buttons_changed then 1 else 0, held_buttons % 256, 0, 0] ++
      u32le (pos_x % 4294967296) ++ u32le (pos_y % 4294967296)
  | MEvent.MouseLeave => u32le 1
  | MEvent.MouseEnter pos_x pos_y =>
    u32le 2 ++ u32le (pos_x % 4294967296) ++ u32le (pos_y % 4294967296)
  | MEvent.WindowFocused => u32le 3
  | MEvent.WindowUnfocused => u32le 4

/-- `Response::encode` followed by `ClientComSender::send_response`
(src/com/mod.rs): `encode` serialises into a 256-byte buffer and returns
the encoded length; `send_response` writes exactly `bytes[..len]`, so the
bytes on the wire are exactly the encoding, with no padding. -/
def Response.send_bytes : Response → List Nat
  | Response.Ok k => u32le RESPONSE_OK_MAGIC ++ k.encode
  | Response.Err e => u32le RESPONSE_ERR_MAGIC ++ u32le e.discriminant
  | Response.Event ev => u32le RESPONSE_EVENT_MAGIC ++ ev.encode

/-- `bincode` decoding of `Response` from a byte buffer
(`Response::decode`), with the `DecodeError → PacketParseErr` mapping of
`packet.rs`: a leading `u32` that is no known discriminant is
`UnexpectedVariant` on `Response`, surfaced as `InvalidMagic`; an
unexpected variant below the top level is `InvalidPacketKind`; running out
of bytes is `UnexpectedEnd`, surfaced as `InvalidPacketSize`. Decoding is
total by construction: `bincode::decode_from_slice` returns a `Result` and
the `?` conversion never panics. -/
def Response.decode (bytes : List Nat) : Except PacketParseErr Response :=
  match readU32 bytes with
  | Option.none => Except.error PacketParseErr.InvalidPacketSize
  | some (magic, rest) =>
    if magic = RESPONSE_OK_MAGIC then
      match readU32 rest with
      | Option.none => Except.error PacketParseErr.InvalidPacketSize
      | some (k, rest1) =>
        if k = 0 then Except.ok (Response.Ok OkResponse.Success)
        else if k = 1 then
          match readU32 rest1 with
          | Option.none => Except.error PacketParseErr.InvalidPacketSize
          | some (lo, rest2) =>
            match readU32 rest2 with
            | Option.none => Except.error PacketParseErr.InvalidPacketSize
            | some (hi, rest3) =>
              match rest3 with
              | w0 :: w1 :: _ :: _ :: p0 :: p1 :: p2 :: p3 :: _ =>
                let _ := (p0, p1, p2, p3)
                Except.ok (Response.Ok
                  (OkResponse.WindowCreated (lo + hi * 4294967296) (w0 + w1 * 256)))
              | _ => Except.error PacketParseErr.InvalidPacketSize
        else Except.error PacketParseErr.InvalidPacketKind
    else if magic = RESPONSE_ERR_MAGIC then
      match readU32 rest with
      | Option.none => Except.error PacketParseErr.InvalidPacketSize
      | some (e, _) =>
        if e = 0 then Except.ok (Response.Err ResponseError.InvalidMagic)
        else if e = 1 then Except.ok (Response.Err ResponseError.InvalidRequestKind)
        else if e = 2 then Except.ok (Response.Err ResponseError.PacketTooShort)
        else if e = 3 then Except.ok (Response.Err ResponseError.InvalidData)
        else if e = 4 then Except.ok (Response.Err ResponseError.UnknownFatalError)
        else if e = 5 then Except.ok (Response.Err ResponseError.UnknownWindow)
        else Except.error PacketParseErr.InvalidPacketKind
    else
      Except.error PacketParseErr.InvalidMagic

/-- Modelled from the spec: the current `request` module of opal-abi is
absent from the sources — the checked-in `request.rs` is an older revision
(payload-less `RequestKind`, `u16` kind, Ping = 2) while `handle_connect`
in `src/com/listener.rs` matches payload-carrying variants and calls
`Request::decode`. Spec §4.1 and scenario S1 define the current wire form:
magic `u32 = 0xBCFEEDAD`, kind `u32` with Ping = 0, then the payload; the
kinds are listed in the order Ping, CreateWindow, DamageWindow. -/
inductive Request where
  | Ping
  | CreateWindow (flags x y width height : Nat)
  | DamageWindow (x y width height : Nat) (win_id : Nat)
  deriving DecidableEq, Repr

/-- Modelled from the spec: `Request::decode` (see `Request`); wrong magic
is `InvalidMagic`, an unknown kind is `InvalidPacketKind`, and a buffer too
short for the kind's payload is `InvalidPacketSize` (spec §4.1:
"length mismatch → PacketTooShort"). -/
def Request.decode (bytes : List Nat) : Except PacketParseErr Request :=
  match readU32 bytes with
  | Option.none => Except.error PacketParseErr.InvalidPacketSize
  | some (magic, rest) =>
    if magic ≠ REQUEST_MAGIC then
      Except.error PacketParseErr.InvalidMagic
    else
      match readU32 rest with
      | Option.none => Except.error PacketParseErr.InvalidPacketSize
      | some (kind, rest1) =>
        if kind = 0 then
          Except.ok Request.Ping
        else if kind = 1 then
          match readU32 rest1 with
          | Option.none => Except.error PacketParseErr.InvalidPacketSize
          | some (flags, r1) =>
            match readU32 r1, readU32 r1 >>= fun a => readU32 a.2 with
            | some (x, _), some (y, r3) =>
              match readU32 r3, readU32 r3 >>= fun a => readU32 a.2 with
              | some (w, _), some (h, _) =>
                Except.ok (Request.CreateWindow flags x y w h)
              | _, _ => Except.error PacketParseErr.InvalidPacketSize
            | _, _ => Except.error PacketParseErr.InvalidPacketSize
        else if kind = 2 then
          match readU32 rest1, readU32 rest1 >>= fun a => readU32 a.2 with
          | some (x, _), some (y, r3) =>
            match readU32 r3, readU32 r3 >>= fun a => readU32 a.2 with
            | some (w, _), some (h, r5) =>
              match r5 with
              | i0 :: i1 :: _ =>
                Except.ok (Request.DamageWindow x y w h (i0 + i1 * 256))
              | _ => Except.error PacketParseErr.InvalidPacketSize
            | _, _ => Except.error PacketParseErr.InvalidPacketSize
          | _, _ => Except.error PacketParseErr.InvalidPacketSize
        else
          Except.error PacketParseErr.InvalidPacketKind

/-- The per-request reply of `handle_connect` (src/com/listener.rs), as the
bytes written back on the connection. `Ping` replies `Ok(Success)`; a
decode failure replies `Err(ResponseError::from(e))`. The `CreateWindow`
and `DamageWindow` arms go through the window store and are modelled with
it (`create_window_request`), not here. -/
def listener_reply (request : List Nat) : Option (List Nat) :=
  match Request.decode request with
  | Except.ok Request.Ping => some (Response.Ok OkResponse.Success).send_bytes
  | Except.ok _ => Option.none
  | Except.error e =>
    some (Response.Err (ResponseError.from_packet e)).send_bytes

/-- The 8-byte Ping request of scenario S1: the request magic `0xBCFEEDAD`
little-endian, then the kind `Ping = 0`. -/
def pingRequestBytes : List Nat := [0xAD, 0xED, 0xFE, 0xBC, 0, 0, 0, 0]

/-! ## Input dispatcher (src/mice.rs) -/

/-- The cursor-relevant part of `MiceCursor`: the cursor window id, the
cached position and cursor dimensions, the previous record's button mask
(`last_mouse_event.buttons_status`) and the id of the window the cursor was
last in contact with. The BMP asset and device reader are I/O plumbing and
not modelled. -/
structure MiceCursor where
  win_id : Nat
  x : Nat
  y : Nat
  width : Nat
  height : Nat
  last_buttons : Nat
  current_window : Option Nat
  deriving DecidableEq, Repr

/-- A mouse record of kind `Change`: the button bitmask
(LEFT = 1, MID = 2, RIGHT = 4) and the relative deltas (`i16` values; the
`i16::MIN` negation edge case is not modelled). -/
structure MouseRecord where
  buttons : Nat
  x_rel : Int
  y_rel : Int
  deriving DecidableEq, Repr

/-- Step 1 of `MiceCursor::handle_event` for a `Change` record: if the
translated delta `(x_rel, -y_rel)` is nonzero, move the cursor window with
`add_cord` — the `.unwrap()` panics (`Option.none`) when the cursor window
is missing — and cache the new position. -/
def cursorStage (fb_width fb_height : Nat) (st : MiceCursor) (ws : Windows)
    (event : MouseRecord) : Option (MiceCursor × Windows) :=
  let x_change : Int := event.x_rel
  let y_change : Int := - event.y_rel
  if ¬(x_change = 0 ∧ y_change = 0) then
    match ws.add_cord fb_width fb_height st.win_id x_change y_change with
    | Option.none => Option.none
    | some ((new_x, new_y), ws1) => some ({ st with x := new_x, y := new_y }, ws1)
  else
    some (st, ws)

/-- The drag step of `MiceCursor::handle_event`: if the LEFT button was
held on the previous record and is still held and a window is focused,
move the focused window by the same translated delta with `add_cord`,
ignoring the result (including a missing-window `None`). -/
def dragStage (fb_width fb_height : Nat) (left_was left_is : Bool)
    (ws1 : Windows) (x_change y_change : Int) : Windows :=
  if left_was && left_is then
    match ws1.focused_window with
    | some focused_id =>
      match ws1.add_cord fb_width fb_height focused_id x_change y_change with
      | some (_, ws1') => ws1'
      | Option.none => ws1
    | Option.none => ws1
  else ws1

/-- `held_buttons` as built in the `MouseChange` arm. -/
def heldButtonsOf (buttons : Nat) : Nat :=
  (if buttons.testBit 0 then 1 else 0) +
    (if buttons.testBit 1 then 2 else 0) +
    (if buttons.testBit 2 then 4 else 0)

/-- `MiceCursor::handle_event` for a record of kind `Change`
(src/mice.rs): move the cursor; find the window in contact; if the LEFT
button was held on the previous record, is still held, and a window is
focused, drag it by the same delta (result ignored); then emit
enter/leave/change events and handle focus transfer on a rising LEFT edge.
`expect`ed event sends and the in-contact lookup panic as `Option.none`;
returns the new cursor state, the new store and the events emitted in
order. -/
def handle_change (fb_width fb_height : Nat) (st : MiceCursor) (ws : Windows)
    (event : MouseRecord) : Option (MiceCursor × Windows × List (Nat × MEvent)) :=
  let old_win_id := st.current_window
  let left_button_was_pressed := st.last_buttons.testBit 0
  let x_change : Int := event.x_rel
  let y_change : Int := - event.y_rel
  match cursorStage fb_width fb_height st ws event with
  | Option.none => Option.none
  | some (st1, ws1) =>
    match ws1.window_in_contact st1.x st1.y st1.width st1.height with
    | Option.none => Option.none
    | some window_in_contact =>
      let left_button_is_pressed := event.buttons.testBit 0
      let ws2 := dragStage fb_width fb_height left_button_was_pressed
        left_button_is_pressed ws1 x_change y_change
      let finish := fun (stNew : MiceCursor) (wsNew : Windows)
          (evs : List (Nat × MEvent)) =>
        some ({ stNew with last_buttons := event.buttons,
                           current_window := window_in_contact.map (·.1) },
              wsNew, evs)
      match window_in_contact with
      | some (curr_id, contact_point) =>
        let x := contact_point.x
        let y := contact_point.y
        let mouse_enter := match old_win_id with
          | Option.none => true
          | some old_id => old_id ≠ curr_id
        let afterEnter : Option (List (Nat × MEvent)) :=
          if mouse_enter then
            match ws2.send_event curr_id (MEvent.MouseEnter x y) with
            | Option.none => Option.none
            | some evsEnter =>
              let evsLeave := match old_win_id with
                | some old_id => (ws2.send_event old_id MEvent.MouseLeave).getD []
                | Option.none => []
              some (evsEnter ++ evsLeave)
          else
            let buttons_changed := decide (st.last_buttons ≠ event.buttons)
            ws2.send_event curr_id
              (MEvent.MouseChange buttons_changed (heldButtonsOf event.buttons) x y)
        match afterEnter with
        | Option.none => Option.none
        | some evs1 =>
          let focusSwitch : Bool :=
            (match ws2.focused_window with
              | Option.none => true
              | some focus_id => focus_id ≠ curr_id) &&
            left_button_is_pressed && !left_button_was_pressed
          if focusSwitch then
            let (_, ws3, evsF) := ws2.set_focused curr_id
            finish st1 ws3 (evs1 ++ evsF)
          else
            finish st1 ws2 evs1
      | Option.none =>
        let evsLeave := match old_win_id with
          | some old_id => (ws2.send_event old_id MEvent.MouseLeave).getD []
          | Option.none => []
        if left_button_is_pressed && !left_button_was_pressed then
          let (ws3, evsU) := ws2.unfocus_current
          finish st1 ws3 (evsLeave ++ evsU)
        else
          finish st1 ws2 evsLeave

/-! ## Concrete scenario states used by closed theorems -/

/-- The id bitmap after seventeen `add_id` allocations from the fresh
store (ids 0..16 live). -/
def allocSeventeen : List Nat :=
  Nat.iterate
    (fun l => match add_id l with | some r => r.2 | Option.none => l) 17
    (List.replicate 8 0)

/-- A 10×10 client window at the origin with a client pipe attached. -/
def demoWindow : MWindow :=
  { pos_x := 0, pos_y := 0, width := 10, height := 10, has_pipe := true }

/-- A 4×4 overlay cursor window at `(50, 50)` (no client pipe). -/
def cursorFar : MWindow :=
  { pos_x := 50, pos_y := 50, width := 4, height := 4, has_pipe := false }

/-- A 4×4 overlay cursor window at `(5, 5)`, overlapping `demoWindow`. -/
def cursorNear : MWindow :=
  { pos_x := 5, pos_y := 5, width := 4, height := 4, has_pipe := false }

/-- A 4×4 overlay cursor window at `(55, 5)`, clear of `demoWindow`. -/
def cursorMid : MWindow :=
  { pos_x := 55, pos_y := 5, width := 4, height := 4, has_pipe := false }

/-- A store with the cursor (id 0, overlay) and the focused client window
(id 1, normal), parametrised by the cursor window. -/
def twoWindowStore (cursor : MWindow) : Windows :=
  { windows := [(0, cursor, WindowKind.Overlay), (1, demoWindow, WindowKind.Normal)]
    overlay_windows := [0]
    normal_windows := [1]
    window_ids := [3, 0, 0, 0, 0, 0, 0, 0]
    focused_window := some 1
    damaged_regions := [] }

/-- Cursor state matching `twoWindowStore`, parametrised by the cached
position, previous button mask and remembered contact. -/
def cursorState (x y buttons : Nat) (contact : Option Nat) : MiceCursor :=
  { win_id := 0, x := x, y := y, width := 4, height := 4,
    last_buttons := buttons, current_window := contact }

/-- A one-window store whose only (normal) window is focused. -/
def focusedOnlyStore : Windows :=
  { windows := [(1, demoWindow, WindowKind.Normal)]
    overlay_windows := []
    normal_windows := [1]
    window_ids := [2, 0, 0, 0, 0, 0, 0, 0]
    focused_window := some 1
    damaged_regions := [] }

/-- The store `focusedOnlyStore` after moving window 1 by `(5, 0)` on a
100×100 framebuffer: the window sits at `(5, 0)` and both rectangles are
logged as damage. -/
def movedStore : Windows :=
  { windows :=
      [(1, { pos_x := 5, pos_y := 0, width := 10, height := 10, has_pipe := true },
        WindowKind.Normal)]
    overlay_windows := []
    normal_windows := [1]
    window_ids := [2, 0, 0, 0, 0, 0, 0, 0]
    focused_window := some 1
    damaged_regions := [{ pos_x := 0, pos_y := 0, width := 10, height := 10 },
      { pos_x := 5, pos_y := 0, width := 10, height := 10 }] }

/-- The store of the C9 witness run: `twoWindowStore cursorFar` after a
Change record with LEFT held and delta `(5, 0)` — cursor and focused
window both moved by `(5, 0)`, four damage rectangles logged. -/
def dragResultStore : Windows :=
  { windows :=
      [(0, { pos_x := 55, pos_y := 50, width := 4, height := 4, has_pipe := false },
        WindowKind.Overlay),
       (1, { pos_x := 5, pos_y := 0, width := 10, height := 10, has_pipe := true },
        WindowKind.Normal)]
    overlay_windows := [0]
    normal_windows := [1]
    window_ids := [3, 0, 0, 0, 0, 0, 0, 0]
    focused_window := some 1
    damaged_regions := [{ pos_x := 50, pos_y := 50, width := 4, height := 4 },
      { pos_x := 55, pos_y := 50, width := 4, height := 4 },
      { pos_x := 0, pos_y := 0, width := 10, height := 10 },
      { pos_x := 5, pos_y := 0, width := 10, height := 10 }] }

/-- The store of the C10 leave-run: `twoWindowStore cursorNear` after the
cursor moved from `(5, 5)` to `(55, 5)` (now clear of `demoWindow`). -/
def leaveRunStore : Windows :=
  { windows := [(0, cursorMid, WindowKind.Overlay), (1, demoWindow, WindowKind.Normal)]
    overlay_windows := [0]
    normal_windows := [1]
    window_ids := [3, 0, 0, 0, 0, 0, 0, 0]
    focused_window := some 1
    damaged_regions := [{ pos_x := 5, pos_y := 5, width := 4, height := 4 },
      { pos_x := 55, pos_y := 5, width := 4, height := 4 }] }

/-- The store of the C10 enter-run: `twoWindowStore cursorMid` after the
cursor moved from `(55, 5)` back to `(5, 5)` (in contact with
`demoWindow`). -/
def enterRunStore : Windows :=
  { windows := [(0, cursorNear, WindowKind.Overlay), (1, demoWindow, WindowKind.Normal)]
    overlay_windows := [0]
    normal_windows := [1]
    window_ids := [3, 0, 0, 0, 0, 0, 0, 0]
    focused_window := some 1
    damaged_regions := [{ pos_x := 55, pos_y := 5, width := 4, height := 4 },
      { pos_x := 5, pos_y := 5, width := 4, height := 4 }] }

/-! ## Helper lemmas -/

theorem findWin_update_self (l : List (Nat × MWindow × WindowKind)) (id : Nat)
    (v : MWindow × WindowKind) (h : (findWin l id).isSome) :
    findWin (l.map (fun e => if e.1 = id then (id, v) else e)) id = some v := by
  induction l with
  | nil => simp [findWin] at h
  | cons e t ih =>
    obtain ⟨i, wv⟩ := e
    simp only [List.map_cons]
    by_cases he : i = id
    · rw [if_pos he, findWin, if_pos rfl]
    · rw [if_neg he, findWin, if_neg he]
      rw [findWin, if_neg he] at h
      exact ih h

theorem findWin_update_other (l : List (Nat × MWindow × WindowKind)) (id j : Nat)
    (v : MWindow × WindowKind) (hj : j ≠ id) :
    findWin (l.map (fun e => if e.1 = id then (id, v) else e)) j = findWin l j := by
  induction l with
  | nil => rfl
  | cons e t ih =>
    obtain ⟨i, wv⟩ := e
    simp only [List.map_cons]
    by_cases he : i = id
    · rw [if_pos he, findWin, if_neg (fun hh => hj hh.symm), findWin, he,
        if_neg (fun hh => hj hh.symm)]
      exact ih
    · rw [if_neg he, findWin, findWin]
      by_cases hej : i = j
      · rw [if_pos hej, if_pos hej]
      · rw [if_neg hej, if_neg hej]
        exact ih

theorem findWin_append_self (l : List (Nat × MWindow × WindowKind)) (id : Nat)
    (v : MWindow × WindowKind) (h : findWin l id = Option.none) :
    findWin (l ++ [(id, v)]) id = some v := by
  induction l with
  | nil => simp [findWin]
  | cons e t ih =>
    obtain ⟨i, wv⟩ := e
    rw [findWin] at h
    by_cases he : i = id
    · rw [if_pos he] at h
      exact absurd h (by simp)
    · rw [if_neg he] at h
      rw [List.cons_append, findWin, if_neg he]
      exact ih h

theorem findWin_insertWin_self (l : List (Nat × MWindow × WindowKind)) (id : Nat)
    (v : MWindow × WindowKind) : findWin (insertWin l id v) id = some v := by
  unfold insertWin
  by_cases h : (findWin l id).isSome
  · rw [if_pos h]
    exact findWin_update_self l id v h
  · rw [if_neg h]
    exact findWin_append_self l id v (by
      cases hf : findWin l id with
      | none => rfl
      | some w => rw [hf] at h; simp at h)

theorem add_cord_spec (fbw fbh : Nat) (s : Windows) (id : Nat) (x y : Int)
    (w : MWindow) (k : WindowKind)
    (hw : findWin s.windows id = some (w, k)) (hxy : ¬(x = 0 ∧ y = 0)) :
    ∃ s1, s.add_cord fbw fbh id x y =
        some ((min (satAddSigned w.pos_x x) (fbw - w.width),
               min (satAddSigned w.pos_y y) (fbh - w.height)), s1) ∧
      findWin s1.windows id =
        some ({ w with pos_x := min (satAddSigned w.pos_x x) (fbw - w.width),
                       pos_y := min (satAddSigned w.pos_y y) (fbh - w.height) }, k) ∧
      (∀ j, j ≠ id → findWin s1.windows j = findWin s.windows j) ∧
      s1.focused_window = s.focused_window ∧
      s1.normal_windows = s.normal_windows := by
  unfold Windows.add_cord
  rw [hw]
  simp only [if_neg hxy, MWindow.damage]
  by_cases h2 : min (satAddSigned w.pos_x x) (fbw - w.width) = w.pos_x ∧
      min (satAddSigned w.pos_y y) (fbh - w.height) = w.pos_y
  · rw [if_pos h2]
    refine ⟨s, rfl, ?_, fun j _ => rfl, rfl, rfl⟩
    rw [h2.1, h2.2, hw]
  · rw [if_neg h2]
    refine ⟨_, rfl, ?_, ?_, rfl, rfl⟩
    · exact findWin_update_self s.windows id _ (by rw [hw]; rfl)
    · intro j hj
      exact findWin_update_other s.windows id j _ hj

theorem add_cord_frame (fbw fbh : Nat) (s : Windows) (id : Nat) (x y : Int)
    (p : Nat × Nat) (s1 : Windows)
    (h : s.add_cord fbw fbh id x y = some (p, s1)) :
    s1.focused_window = s.focused_window ∧ s1.normal_windows = s.normal_windows ∧
      s1.overlay_windows = s.overlay_windows ∧ s1.window_ids = s.window_ids := by
  unfold Windows.add_cord at h
  cases hw : findWin s.windows id with
  | none => rw [hw] at h; exact absurd h (by simp)
  | some wk =>
    rw [hw] at h
    obtain ⟨w, k⟩ := wk
    simp only at h
    split at h
    · obtain ⟨-, rfl⟩ := Prod.mk.injEq .. ▸ (Option.some.injEq .. ▸ h)
      exact ⟨rfl, rfl, rfl, rfl⟩
    · split at h
      · obtain ⟨-, rfl⟩ := Prod.mk.injEq .. ▸ (Option.some.injEq .. ▸ h)
        exact ⟨rfl, rfl, rfl, rfl⟩
      · obtain ⟨-, rfl⟩ := Prod.mk.injEq .. ▸ (Option.some.injEq .. ▸ h)
        exact ⟨rfl, rfl, rfl, rfl⟩

theorem add_cord_keepAt (fbw fbh : Nat) (s : Windows) (id : Nat) (x y : Int)
    (p : Nat × Nat) (s1 : Windows) (j : Nat) (wj : MWindow) (kj : WindowKind)
    (h : s.add_cord fbw fbh id x y = some (p, s1))
    (hj : findWin s.windows j = some (wj, kj)) :
    ∃ wj', findWin s1.windows j = some (wj', kj) ∧ wj'.has_pipe = wj.has_pipe ∧
      wj'.width = wj.width ∧ wj'.height = wj.height := by
  unfold Windows.add_cord at h
  cases hw : findWin s.windows id with
  | none => rw [hw] at h; exact absurd h (by simp)
  | some wk =>
    rw [hw] at h
    obtain ⟨w, k⟩ := wk
    simp only at h
    split at h
    · obtain ⟨-, rfl⟩ := Prod.mk.injEq .. ▸ (Option.some.injEq .. ▸ h)
      exact ⟨wj, hj, rfl, rfl, rfl⟩
    · split at h
      · obtain ⟨-, rfl⟩ := Prod.mk.injEq .. ▸ (Option.some.injEq .. ▸ h)
        exact ⟨wj, hj, rfl, rfl, rfl⟩
      · obtain ⟨-, rfl⟩ := Prod.mk.injEq .. ▸ (Option.some.injEq .. ▸ h)
        simp only [Windows.insert_damage]
        by_cases hji : j = id
        · subst hji
          rw [hj] at hw
          obtain ⟨rfl, rfl⟩ := Prod.mk.injEq .. ▸ (Option.some.injEq .. ▸ hw)
          exact ⟨_, findWin_update_self s.windows j _ (by rw [hj]; rfl), rfl, rfl, rfl⟩
        · exact ⟨wj, by
            show findWin (s.windows.map _) j = _
            rw [findWin_update_other s.windows id j _ hji]; exact hj,
            rfl, rfl, rfl⟩

theorem set_focused_windows (s : Windows) (id : Nat) :
    ((s.set_focused id).2.1).windows = s.windows := by
  unfold Windows.set_focused
  cases hw : findWin s.windows id with
  | none => rfl
  | some wk =>
    obtain ⟨w, k⟩ := wk
    cases k <;> rfl

theorem unfocus_windows (s : Windows) :
    (s.unfocus_current).1.windows = s.windows := by
  unfold Windows.unfocus_current
  cases hf : s.focused_window with
  | none => rfl
  | some id =>
    cases hw : findWin s.windows id with
    | none => simp [hw]
    | some wk => simp [hw, Windows.insert_damage]

theorem cursorStage_frame (fbw fbh : Nat) (st : MiceCursor) (ws : Windows)
    (ev : MouseRecord) (st1 : MiceCursor) (ws1 : Windows)
    (h : cursorStage fbw fbh st ws ev = some (st1, ws1)) :
    ws1.focused_window = ws.focused_window ∧
      (∀ j, j ≠ st.win_id → findWin ws1.windows j = findWin ws.windows j) ∧
      (∀ j wj kj, findWin ws.windows j = some (wj, kj) →
        ∃ wj', findWin ws1.windows j = some (wj', kj) ∧ wj'.has_pipe = wj.has_pipe ∧
          wj'.width = wj.width ∧ wj'.height = wj.height) ∧
      st1.width = st.width ∧ st1.height = st.height ∧ st1.win_id = st.win_id ∧
      st1.last_buttons = st.last_buttons ∧ st1.current_window = st.current_window := by
  simp only [cursorStage] at h
  split at h
  case isTrue hne =>
    cases hac : ws.add_cord fbw fbh st.win_id ev.x_rel (-ev.y_rel) with
    | none => rw [hac] at h; exact absurd h (by simp)
    | some r =>
      obtain ⟨⟨nx, ny⟩, ws'⟩ := r
      rw [hac] at h
      simp only at h
      obtain ⟨rfl, rfl⟩ := Prod.mk.injEq .. ▸ (Option.some.injEq .. ▸ h)
      obtain ⟨hfoc, -, -, -⟩ := add_cord_frame fbw fbh ws st.win_id _ _ _ _ hac
      refine ⟨hfoc, ?_, ?_, rfl, rfl, rfl, rfl, rfl⟩
      · intro j hj
        unfold Windows.add_cord at hac
        cases hw : findWin ws.windows st.win_id with
        | none => rw [hw] at hac; exact absurd hac (by simp)
        | some wk =>
          rw [hw] at hac
          obtain ⟨w, k⟩ := wk
          simp only at hac
          split at hac
          · obtain ⟨-, rfl⟩ := Prod.mk.injEq .. ▸ (Option.some.injEq .. ▸ hac); rfl
          · split at hac
            · obtain ⟨-, rfl⟩ := Prod.mk.injEq .. ▸ (Option.some.injEq .. ▸ hac); rfl
            · obtain ⟨-, rfl⟩ := Prod.mk.injEq .. ▸ (Option.some.injEq .. ▸ hac)
              exact findWin_update_other ws.windows st.win_id j _ hj
      · intro j wj kj hj
        exact add_cord_keepAt fbw fbh ws st.win_id _ _ _ _ j wj kj hac hj
  case isFalse =>
    obtain ⟨rfl, rfl⟩ := Prod.mk.injEq .. ▸ (Option.some.injEq .. ▸ h)
    exact ⟨rfl, fun j _ => rfl, fun j wj kj hj => ⟨wj, hj, rfl, rfl, rfl⟩,
      rfl, rfl, rfl, rfl, rfl⟩

theorem dragStage_keepAt (fbw fbh : Nat) (lw li : Bool) (ws1 : Windows)
    (x y : Int) (j : Nat) (wj : MWindow) (kj : WindowKind)
    (hj : findWin ws1.windows j = some (wj, kj)) :
    ∃ wj', findWin (dragStage fbw fbh lw li ws1 x y).windows j = some (wj', kj) ∧
      wj'.has_pipe = wj.has_pipe ∧ wj'.width = wj.width ∧ wj'.height = wj.height := by
  unfold dragStage
  split
  · split
    · split
      · next p ws' hac =>
          exact add_cord_keepAt fbw fbh ws1 _ x y p ws' j wj kj hac hj
      · exact ⟨wj, hj, rfl, rfl, rfl⟩
    · exact ⟨wj, hj, rfl, rfl, rfl⟩
  · exact ⟨wj, hj, rfl, rfl, rfl⟩

theorem dragStage_spec (fbw fbh : Nat) (lw li : Bool) (ws1 : Windows)
    (x y : Int) (fid : Nat) (w : MWindow) (k : WindowKind)
    (hlw : lw = true) (hli : li = true) (hf : ws1.focused_window = some fid)
    (hw : findWin ws1.windows fid = some (w, k)) (hxy : ¬(x = 0 ∧ y = 0)) :
    findWin (dragStage fbw fbh lw li ws1 x y).windows fid =
      some ({ w with pos_x := min (satAddSigned w.pos_x x) (fbw - w.width),
                     pos_y := min (satAddSigned w.pos_y y) (fbh - w.height) }, k) := by
  unfold dragStage
  obtain ⟨s2, hacr, hfind, -, -, -⟩ := add_cord_spec fbw fbh ws1 fid x y w k hw hxy
  rw [hlw, hli]
  simp only [Bool.true_and, if_true]
  split
  · next fid2 hf2 =>
      rw [hf] at hf2
      obtain rfl : fid = fid2 := Option.some.injEq .. ▸ hf2
      split
      · next p ws' hac =>
          rw [hacr] at hac
          obtain ⟨hp, hws⟩ := Prod.mk.injEq .. ▸ (Option.some.injEq .. ▸ hac)
          rw [← hws]
          exact hfind
      · next hac =>
          rw [hacr] at hac
          exact absurd hac (by simp)
  · next hf2 =>
      rw [hf] at hf2
      exact absurd hf2 (by simp)

theorem dragStage_frame (fbw fbh : Nat) (lw li : Bool) (ws1 : Windows)
    (x y : Int) :
    (dragStage fbw fbh lw li ws1 x y).focused_window = ws1.focused_window := by
  unfold dragStage
  split
  · split
    · split
      · next p ws' hac =>
          exact (add_cord_frame fbw fbh ws1 _ x y p ws' hac).1
      · rfl
    · rfl
  · rfl

theorem fillRange_length (px : List Pixel) (start len : Nat) (p : Pixel)
    (px' : List Pixel) (h : fillRange px start len p = some px') :
    px'.length = px.length := by
  unfold fillRange at h
  split at h
  case isTrue hle =>
    obtain rfl := Option.some.injEq .. ▸ h
    simp only [List.length_append, List.length_take, List.length_drop,
      List.length_replicate]
    omega
  case isFalse => exact absurd h (by simp)

theorem fillRange_eq_none (px : List Pixel) (start len : Nat) (p : Pixel) :
    fillRange px start len p = Option.none ↔ px.length < start + len := by
  unfold fillRange
  split <;> simp <;> omega

theorem fillRowsAux_length (W ox oy wd : Nat) (p : Pixel) :
    ∀ (count row : Nat) (px px' : List Pixel),
      fillRowsAux W ox oy wd p px row count = some px' → px'.length = px.length := by
  intro count
  induction count with
  | zero =>
    intro row px px' h
    obtain rfl := Option.some.injEq .. ▸ h
    rfl
  | succ k ih =>
    intro row px px' h
    rw [fillRowsAux] at h
    cases h1 : fillRange px (ox + (oy + row) * W) wd p with
    | none => rw [h1] at h; exact absurd h (by simp)
    | some px1 =>
      rw [h1] at h
      simp only at h
      rw [ih (row + 1) px1 px' h, fillRange_length px _ _ p px1 h1]

theorem fillRowsAux_none_iff (W ox oy wd : Nat) (p : Pixel) :
    ∀ (count row : Nat) (px : List Pixel),
      fillRowsAux W ox oy wd p px row count = Option.none ↔
        ∃ i, i < count ∧ px.length < ox + (oy + (row + i)) * W + wd := by
  intro count
  induction count with
  | zero =>
    intro row px
    simp [fillRowsAux]
  | succ k ih =>
    intro row px
    rw [fillRowsAux]
    cases h1 : fillRange px (ox + (oy + row) * W) wd p with
    | none =>
      simp only
      constructor
      · intro _
        refine ⟨0, Nat.succ_pos k, ?_⟩
        have := (fillRange_eq_none px (ox + (oy + row) * W) wd p).mp h1
        have hrow : row + 0 = row := rfl
        rw [hrow]
        omega
      · intro _
        trivial
    | some px1 =>
      simp only
      have hlen1 : px1.length = px.length := fillRange_length px _ _ p px1 h1
      have hfit : ¬ px.length < (ox + (oy + row) * W) + wd := by
        intro hlt
        rw [(fillRange_eq_none px (ox + (oy + row) * W) wd p).mpr hlt] at h1
        exact Option.noConfusion h1
      rw [ih (row + 1) px1]
      constructor
      · rintro ⟨i, hik, hb⟩
        refine ⟨i + 1, by omega, ?_⟩
        have he : row + (i + 1) = row + 1 + i := by omega
        rw [he]
        omega
      · rintro ⟨i, hik, hb⟩
        cases i with
        | zero =>
          exact absurd (by have hrow : row + 0 = row := rfl; rw [hrow] at hb; omega) hfit
        | succ j =>
          refine ⟨j, by omega, ?_⟩
          have he : row + 1 + j = row + (j + 1) := by omega
          rw [he]
          omega

theorem readU32_of_len (l : List Nat) (h : 4 ≤ l.length) :
    ∃ v rest, readU32 l = some (v, rest) := by
  cases l with
  | nil => simp at h
  | cons a l1 =>
    cases l1 with
    | nil => simp at h
    | cons b l2 =>
      cases l2 with
      | nil => simp at h
      | cons c l3 =>
        cases l3 with
        | nil => simp at h
        | cons d t => exact ⟨_, _, rfl⟩

theorem exists_two_of_len (l : List Nat) (h : l.length = 2) :
    ∃ a b, l = [a, b] := by
  cases l with
  | nil => simp at h
  | cons a l1 =>
    cases l1 with
    | nil => simp at h
    | cons b l2 =>
      cases l2 with
      | nil => exact ⟨a, b, rfl⟩
      | cons c l3 => simp at h

/-! ## Claim theorems -/

/-- C1 (counterexample): the position of a newly created window is NOT
clamped. On a 100×100 framebuffer, a client `CreateWindow` request at
`x = 200` with width 10 installs a window whose `pos_x = 200`, violating
`pos_x ≤ fb.width - width = 90`. -/
theorem create_window_skips_clamp :
    (create_window_request Windows.new 200 0 10 10).1 = some 0 ∧
    findWin (create_window_request Windows.new 200 0 10 10).2.1.windows 0 =
      some ({ pos_x := 200, pos_y := 0, width := 10, height := 10,
              has_pipe := true }, WindowKind.Normal) ∧
    ¬ (200 ≤ 100 - 10) := by
  decide

/-- C1 (amended): positions are clamped only when a window moves.
`add_cord` with a nonzero delta always leaves the window at a position
satisfying `pos_x ≤ fb.w - w` and `pos_y ≤ fb.h - h` (lower bounds are
trivial over `Nat`); the `CreateWindow` path stores the requested position
unchanged, so a newly created window need not satisfy the invariant. -/
theorem positions_clamped_only_by_moves :
    (∀ (fbw fbh : Nat) (s : Windows) (id : Nat) (x y : Int) (w : MWindow)
        (k : WindowKind) (p : Nat × Nat) (s1 : Windows),
      findWin s.windows id = some (w, k) → w.width ≤ fbw → w.height ≤ fbh →
      ¬(x = 0 ∧ y = 0) →
      s.add_cord fbw fbh id x y = some (p, s1) →
      p.1 ≤ fbw - w.width ∧ p.2 ≤ fbh - w.height ∧
        findWin s1.windows id = some ({ w with pos_x := p.1, pos_y := p.2 }, k)) ∧
    (∀ (s : Windows) (x y wd ht id : Nat) (s1 : Windows)
        (evs : List (Nat × MEvent)),
      create_window_request s x y wd ht = (some id, s1, evs) →
      findWin s1.windows id =
        some ({ pos_x := x, pos_y := y, width := wd, height := ht,
                has_pipe := true }, WindowKind.Normal)) := by
  constructor
  · intro fbw fbh s id x y w k p s1 hw hwle hhle hxy hrun
    obtain ⟨s1', hs, hfind, -, -, -⟩ := add_cord_spec fbw fbh s id x y w k hw hxy
    rw [hrun] at hs
    obtain ⟨hp, hss⟩ := Prod.mk.injEq .. ▸ (Option.some.injEq .. ▸ hs)
    subst hss
    rw [hp]
    exact ⟨Nat.min_le_right _ _, Nat.min_le_right _ _, hfind⟩
  · intro s x y wd ht id s1 evs h
    unfold create_window_request Windows.add_window at h
    cases hid : add_id s.window_ids with
    | none => rw [hid] at h; exact absurd h (by simp)
    | some r =>
      obtain ⟨id0, ids1⟩ := r
      rw [hid] at h
      simp only at h
      obtain ⟨hids, hrest⟩ := Prod.mk.injEq .. ▸ h
      obtain ⟨hs1, -⟩ := Prod.mk.injEq .. ▸ hrest
      obtain rfl : id0 = id := Option.some.injEq .. ▸ hids
      rw [← hs1, set_focused_windows]
      exact findWin_insertWin_self s.windows id0 _

/-- C1 (witness): concrete instantiations of both parts of
`positions_clamped_only_by_moves`: a clamped move on `focusedOnlyStore` and
an unclamped creation on the fresh store. -/
theorem positions_clamped_only_by_moves_witness :
    ((5 : Nat) ≤ 100 - 10 ∧ (0 : Nat) ≤ 100 - 10 ∧
      findWin movedStore.windows 1 =
        some ({ pos_x := 5, pos_y := 0, width := 10, height := 10,
                has_pipe := true }, WindowKind.Normal)) ∧
    findWin (create_window_request Windows.new 200 0 10 10).2.1.windows 0 =
      some ({ pos_x := 200, pos_y := 0, width := 10, height := 10,
              has_pipe := true }, WindowKind.Normal) := by
  constructor
  · have h := positions_clamped_only_by_moves.1 100 100 focusedOnlyStore 1 5 0
      demoWindow WindowKind.Normal (5, 0) _ (by decide) (by decide) (by decide)
      (by decide) rfl
    exact h
  · exact positions_clamped_only_by_moves.2 Windows.new 200 0 10 10 0 _ _ rfl

/-- C2: `remove_id` is broken by a byte/bit mix-up: it computes the word
index with `size_of_val` (16 bytes) where `add_id` uses 128 bits. After
seventeen allocations id 16 is live (bit 16 of word 0), yet
`remove_id 16` inspects bit 0 of word 1 and returns `false` — contradicting
the spec contract and the `assert!` in `remove_window` — and
`remove_id 200` (any id in `128..1024`) indexes word 12 of the 8-word array
and panics instead of returning `false`. -/
theorem remove_id_uses_byte_width :
    allocSeventeen = [131071, 0, 0, 0, 0, 0, 0, 0] ∧
    Nat.testBit 131071 16 = true ∧
    remove_id allocSeventeen 16 = some (false, allocSeventeen) ∧
    remove_id (List.replicate 8 0) 200 = Option.none := by
  decide

/-- C3 (counterexample): `blend(s, d)` with `s.alpha = 0` does not return
`d`. For `s = (0,0,0,0)` and `d` with `red = 1, alpha = 2`, the result has
`red = d.red * d.alpha = 2` (alpha is preserved), so the result differs
from `d`. -/
theorem blend_zero_alpha_not_identity :
    (Pixel.blend { blue := 0, green := 0, red := 0, alpha := 0 }
        { blue := 0, green := 0, red := 1, alpha := 2 }).alpha = 2 ∧
    Pixel.blend { blue := 0, green := 0, red := 0, alpha := 0 }
        { blue := 0, green := 0, red := 1, alpha := 2 } ≠
      { blue := 0, green := 0, red := 1, alpha := 2 } := by
  decide

/-- C3 (amended): with `s.alpha = 255`, `blend(s, d) = s` exactly (no
rounding loss at all); with `s.alpha = 0` the result's alpha equals
`d.alpha`, but each colour channel is `(d.c * d.alpha % 2^16) * 255 % 2^16
/ 255 % 2^8` — the destination channel scaled by its own alpha (with `u16`
wraparound), not `d.c` itself. -/
theorem blend_alpha_laws :
    (∀ s d : Pixel, s.Wf → d.Wf → s.alpha = 255 → s.blend d = s) ∧
    (∀ s d : Pixel, s.Wf → d.Wf → s.alpha = 0 →
      (s.blend d).alpha = d.alpha ∧
      (s.blend d).red = d.red * d.alpha % 65536 * 255 % 65536 / 255 % 256 ∧
      (s.blend d).green = d.green * d.alpha % 65536 * 255 % 65536 / 255 % 256 ∧
      (s.blend d).blue = d.blue * d.alpha % 65536 * 255 % 65536 / 255 % 256) := by
  constructor
  · intro s d hs hd ha
    obtain ⟨hsb, hsg, hsr, -⟩ := hs
    obtain ⟨-, -, -, hda⟩ := hd
    unfold Pixel.blend
    rw [ha]
    simp only [Nat.sub_self, Nat.mul_zero, Nat.zero_mod, Nat.add_zero]
    cases s with
    | mk sb sg sr sa =>
      simp only at hsb hsg hsr ha
      subst ha
      simp only [Pixel.mk.injEq]
      have hb1 : sb * 255 < 65536 := by omega
      have hg1 : sg * 255 < 65536 := by omega
      have hr1 : sr * 255 < 65536 := by omega
      have ha1 : 255 * 255 < 65536 := by omega
      refine ⟨?_, ?_, ?_, ?_⟩
      · rw [Nat.mod_eq_of_lt hb1, Nat.mod_eq_of_lt hb1,
          Nat.mul_div_cancel _ (by norm_num), Nat.mod_eq_of_lt hsb]
      · rw [Nat.mod_eq_of_lt hg1, Nat.mod_eq_of_lt hg1,
          Nat.mul_div_cancel _ (by norm_num), Nat.mod_eq_of_lt hsg]
      · rw [Nat.mod_eq_of_lt hr1, Nat.mod_eq_of_lt hr1,
          Nat.mul_div_cancel _ (by norm_num), Nat.mod_eq_of_lt hsr]
      · have h2 : 255 * d.alpha < 65536 := by omega
        rw [Nat.mod_eq_of_lt h2, Nat.mul_div_cancel_left _ (by norm_num)]
        omega
  · intro s d hs hd ha
    obtain ⟨-, -, -, hda⟩ := hd
    unfold Pixel.blend
    rw [ha]
    simp only [Nat.mul_zero, Nat.zero_mod, Nat.zero_add, Nat.sub_zero, Nat.zero_mul,
      Nat.zero_div]
    refine ⟨?_, ?_, ?_, ?_⟩
    · exact Nat.mod_eq_of_lt hda
    · rw [Nat.mod_mod_of_dvd _ dvd_rfl]
    · rw [Nat.mod_mod_of_dvd _ dvd_rfl]
    · rw [Nat.mod_mod_of_dvd _ dvd_rfl]

/-- C3 (witness): `blend_alpha_laws` applied at concrete pixels. -/
theorem blend_alpha_laws_witness :
    Pixel.blend { blue := 3, green := 4, red := 5, alpha := 255 }
        { blue := 6, green := 7, red := 8, alpha := 9 } =
      { blue := 3, green := 4, red := 5, alpha := 255 } ∧
    (Pixel.blend { blue := 0, green := 0, red := 0, alpha := 0 }
        { blue := 0, green := 0, red := 1, alpha := 2 }).alpha = 2 := by
  refine ⟨blend_alpha_laws.1 _ _ (by decide) (by decide) rfl, ?_⟩
  exact (blend_alpha_laws.2 { blue := 0, green := 0, red := 0, alpha := 0 }
    { blue := 0, green := 0, red := 1, alpha := 2 } (by decide) (by decide) rfl).1

/-- C4 (counterexample): the WM's reply to the S1 Ping request is the
8-byte packet `DD 00 EF A1 00 00 00 00` (little-endian `0xA1EF00DD`
followed by `Success = 0`), not a packet starting `DD 00 F0 1E` and not
zero-padded to 256 bytes (`send_response` writes only the encoded length). -/
theorem ping_reply_bytes_differ :
    listener_reply pingRequestBytes = some [0xDD, 0x00, 0xEF, 0xA1, 0, 0, 0, 0] ∧
    List.take 8 [0xDD, 0x00, 0xEF, 0xA1, (0 : Nat), 0, 0, 0] ≠
      [0xDD, 0x00, 0xF0, 0x1E, 0, 0, 0, 0] ∧
    List.length [0xDD, 0x00, 0xEF, 0xA1, (0 : Nat), 0, 0, 0] ≠ 256 := by
  decide

/-- C4 (amended): on the S1 Ping request the WM replies with exactly the
eight bytes `DD 00 EF A1 00 00 00 00` — the Ok magic `0xA1EF00DD`
little-endian followed by `Success = 0` — with no padding. -/
theorem ping_reply_exact :
    listener_reply pingRequestBytes =
      some (Response.Ok OkResponse.Success).send_bytes ∧
    (Response.Ok OkResponse.Success).send_bytes =
      [0xDD, 0x00, 0xEF, 0xA1, 0, 0, 0, 0] := by
  decide

/-- C5: request decoding is total. For every byte buffer,
`RawRequest::try_from_bytes` reaches no panic (every slice index, byte
read and conversion is in range on every path) and yields either a parsed
request or a `RequestParseErr`; each error kind surfaces to the client as
one of `InvalidMagic`, `InvalidRequestKind`, `PacketTooShort` (and
`Response::decode` errors additionally as `InvalidData`). -/
theorem request_decode_total :
    (∀ bytes : List Nat, ∃ r, RawRequest.try_from_bytes bytes = some r) ∧
    (∀ e : RequestParseErr,
      ResponseError.from_request e ∈
        [ResponseError.InvalidMagic, ResponseError.InvalidRequestKind,
          ResponseError.PacketTooShort]) ∧
    (∀ e : PacketParseErr,
      ResponseError.from_packet e ∈
        [ResponseError.InvalidMagic, ResponseError.InvalidRequestKind,
          ResponseError.PacketTooShort, ResponseError.InvalidData]) := by
  refine ⟨?_, fun e => by cases e <;> simp [ResponseError.from_request],
    fun e => by cases e <;> simp [ResponseError.from_packet]⟩
  intro bytes
  unfold RawRequest.try_from_bytes
  by_cases hlen : bytes.length < 256
  · rw [if_pos hlen]
    exact ⟨_, rfl⟩
  · rw [if_neg hlen]
    have h4 : byteSlice bytes 0 4 = some ((bytes.drop 0).take 4) := by
      unfold byteSlice
      rw [if_pos (by omega)]
    have h2 : byteSlice bytes 4 2 = some ((bytes.drop 4).take 2) := by
      unfold byteSlice
      rw [if_pos (by omega)]
    have h250 : byteSlice bytes 6 250 = some ((bytes.drop 6).take 250) := by
      unfold byteSlice
      rw [if_pos (by omega)]
    rw [h4, h2, h250]
    simp only
    obtain ⟨v, rest, hv⟩ := readU32_of_len ((bytes.drop 0).take 4) (by
      simp only [List.length_take, List.length_drop]
      omega)
    rw [hv]
    simp only
    by_cases hm : v ≠ REQUEST_MAGIC
    · rw [if_pos hm]
      exact ⟨_, rfl⟩
    · rw [if_neg hm]
      obtain ⟨k0, k1, hk⟩ := exists_two_of_len ((bytes.drop 4).take 2) (by
        simp only [List.length_take, List.length_drop]
        omega)
      rw [hk]
      simp only
      cases hdk : decodeRawRequestKind (k0 + k1 * 256) with
      | none => exact ⟨_, rfl⟩
      | some kind => exact ⟨_, rfl⟩

/-- C6 (counterexample): `draw_rect_filled_with` does not silently discard
out-of-range rows — it panics. On a 2×2 framebuffer, drawing a 3-wide
2-tall rectangle at `(0, 1)` computes row start 2 (before the end of the
4-pixel array) but row end 5, and the slice indexing panics. -/
theorem draw_rect_filled_panics :
    Framebuffer.draw_rect_filled_with
        { width := 2, height := 2, pixels := List.replicate 4 (Pixel.from_hex 0) }
        0 1 3 2 (Pixel.from_hex 5) = Option.none := by
  decide

/-- C6 (amended): `draw_rect_filled_with` performs no bounds check: it
panics exactly when some row's slice `[row_index, row_index + width)`
extends past the end of the pixel array, and otherwise fills the requested
rows, never changing the size of the pixel array. -/
theorem draw_rect_filled_unchecked :
    ∀ (fb : Framebuffer) (off_x off_y width height : Nat) (pixel : Pixel),
      (fb.draw_rect_filled_with off_x off_y width height pixel = Option.none ↔
        ∃ row, row < height ∧
          fb.pixels.length < off_x + (off_y + row) * fb.width + width) ∧
      Option.all (fun fb1 => fb1.pixels.length == fb.pixels.length)
        (fb.draw_rect_filled_with off_x off_y width height pixel) = true := by
  intro fb off_x off_y width height pixel
  unfold Framebuffer.draw_rect_filled_with
  cases haux : fillRowsAux fb.width off_x off_y width pixel fb.pixels 0 height with
  | none =>
    refine ⟨⟨fun _ => ?_, fun _ => rfl⟩, rfl⟩
    obtain ⟨i, hik, hb⟩ :=
      (fillRowsAux_none_iff fb.width off_x off_y width pixel height 0 fb.pixels).mp haux
    exact ⟨i, hik, by simpa using hb⟩
  | some px1 =>
    constructor
    · constructor
      · intro hcontra
        exact absurd hcontra (by simp)
      · rintro ⟨i, hik, hb⟩
        have hnone : fillRowsAux fb.width off_x off_y width pixel fb.pixels 0 height =
            Option.none :=
          (fillRowsAux_none_iff fb.width off_x off_y width pixel height 0
            fb.pixels).mpr ⟨i, hik, by simpa using hb⟩
        rw [haux] at hnone
        exact absurd hnone (by simp)
    · show (px1.length == fb.pixels.length) = true
      exact beq_iff_eq.mpr
        (fillRowsAux_length fb.width off_x off_y width pixel height 0 fb.pixels px1 haux)

/-- C7 (counterexample): `IntersectionPoint::none()` is not a neutral
element of `+`: for the rectangle `((1,1),(2,2))`, `none + r` relocates the
top-left corner to the origin. -/
theorem union_identity_fails :
    IntersectionPoint.add IntersectionPoint.none
        { top_left_within := (1, 1), bottom_right_within := (2, 2) } ≠
      { top_left_within := (1, 1), bottom_right_within := (2, 2) } := by
  decide

/-- C7 (amended): the union `+` is commutative and associative, but the
identity rectangle is neutral only through the `Sum` implementation, which
special-cases a `none` accumulator: summing a singleton gives it back and a
leading `none` summand does not change a sum; `none + r` itself moves the
top-left corner to the origin (see the counterexample). -/
theorem union_comm_assoc_sum :
    (∀ a b : IntersectionPoint, a.add b = b.add a) ∧
    (∀ a b c : IntersectionPoint, (a.add b).add c = a.add (b.add c)) ∧
    (∀ r : IntersectionPoint, IntersectionPoint.sumList [r] = r) ∧
    (∀ l : List IntersectionPoint,
      IntersectionPoint.sumList (IntersectionPoint.none :: l) =
        IntersectionPoint.sumList l) := by
  refine ⟨?_, ?_, ?_, ?_⟩
  · intro a b
    simp only [IntersectionPoint.add, IntersectionPoint.mk.injEq, Prod.mk.injEq]
    refine ⟨⟨?_, ?_⟩, ?_, ?_⟩ <;> omega
  · intro a b c
    simp only [IntersectionPoint.add, IntersectionPoint.mk.injEq, Prod.mk.injEq]
    refine ⟨⟨?_, ?_⟩, ?_, ?_⟩ <;> omega
  · intro r
    simp [IntersectionPoint.sumList]
  · intro l
    simp [IntersectionPoint.sumList]

/-- C8 (counterexample): `set_focused` on the already-focused window is not
a no-op. On `focusedOnlyStore` (window 1 focused), `set_focused 1` emits
events (`WindowFocused` then `WindowUnfocused`, both to window 1) and
appends to the damage log. -/
theorem set_focused_refocus_emits :
    (focusedOnlyStore.set_focused 1).2.2 ≠ [] ∧
    (focusedOnlyStore.set_focused 1).2.1.damaged_regions ≠
      focusedOnlyStore.damaged_regions := by
  decide

/-- C8 (amended): when `id` is already the focused window (and the topmost
normal window), `set_focused id` leaves the focus, both Z-lists and the
window map unchanged, but it still sends `WindowFocused` and then
`WindowUnfocused` to that same window and appends the window's rectangle
to the damage log. -/
theorem set_focused_refocus_behavior :
    ∀ (s : Windows) (id : Nat) (w : MWindow) (l : List Nat),
      s.focused_window = some id →
      findWin s.windows id = some (w, WindowKind.Normal) →
      s.normal_windows = l ++ [id] → id ∉ l →
      s.set_focused id =
        (true, { s with damaged_regions := s.damaged_regions ++ [w.damage] },
          w.sendEvent id MEvent.WindowFocused ++
            w.sendEvent id MEvent.WindowUnfocused) := by
  intro s id w l hf hw hn hl
  obtain ⟨wins, ov, nw, ids, foc, dmg⟩ := s
  simp only at hf hn hw
  subst hf
  subst hn
  simp only [Windows.set_focused, hw, Windows.insert_damage]
  rw [List.erase_append_right _ hl, List.erase_cons_head, List.append_nil]

/-- C8 (witness): `set_focused_refocus_behavior` at `focusedOnlyStore`. -/
theorem set_focused_refocus_behavior_witness :
    focusedOnlyStore.set_focused 1 =
      (true,
        { focusedOnlyStore with
            damaged_regions := focusedOnlyStore.damaged_regions ++ [demoWindow.damage] },
        demoWindow.sendEvent 1 MEvent.WindowFocused ++
          demoWindow.sendEvent 1 MEvent.WindowUnfocused) :=
  set_focused_refocus_behavior focusedOnlyStore 1 demoWindow [] rfl rfl rfl
    (by decide)

/-- C9 (counterexample): with the LEFT bit set on the previous record but
released on the current one, the focused window does not move. In
`twoWindowStore cursorFar` with window 1 focused at `(0, 0)` and
`last_buttons = LEFT`, a Change record with `buttons = 0, x_rel = 5`
leaves window 1 at `(0, 0)`, not at `(5, 0)` as the claim requires. -/
theorem drag_stops_without_left_held :
    (handle_change 100 100 (cursorState 50 50 1 Option.none)
        (twoWindowStore cursorFar) { buttons := 0, x_rel := 5, y_rel := 0 }).map
        (fun r => (findWin r.2.1.windows 1).map (fun wk => (wk.1.pos_x, wk.1.pos_y))) =
      some (some (0, 0)) ∧
    ((0 : Nat), (0 : Nat)) ≠ ((5 : Nat), (0 : Nat)) := by
  decide

/-- C9 (amended): the dispatcher drags the focused window only while the
LEFT button is held on BOTH the previous and the current record: under
those conditions (and a nonzero translated delta), processing a Change
record leaves the focused window at the clamped position obtained by
applying the cursor's delta `(x_rel, -y_rel)` through `add_cord`. -/
theorem drag_moves_focused_when_left_held :
    ∀ (fbw fbh : Nat) (st : MiceCursor) (ws : Windows) (ev : MouseRecord)
      (fid : Nat) (w : MWindow) (k : WindowKind) (st' : MiceCursor)
      (ws' : Windows) (evs : List (Nat × MEvent)),
      st.last_buttons.testBit 0 = true →
      ev.buttons.testBit 0 = true →
      ws.focused_window = some fid →
      fid ≠ st.win_id →
      findWin ws.windows fid = some (w, k) →
      ¬(ev.x_rel = 0 ∧ -ev.y_rel = 0) →
      handle_change fbw fbh st ws ev = some (st', ws', evs) →
      findWin ws'.windows fid =
        some ({ w with
            pos_x := min (satAddSigned w.pos_x ev.x_rel) (fbw - w.width),
            pos_y := min (satAddSigned w.pos_y (-ev.y_rel)) (fbh - w.height) }, k) := by
  intro fbw fbh st ws ev fid w k st' ws' evs hlw hli hfoc hfid hw hxy hrun
  simp only [handle_change] at hrun
  split at hrun
  · exact absurd hrun (by simp)
  · next st1 ws1 hcs =>
    split at hrun
    · exact absurd hrun (by simp)
    · next contact hctc =>
      obtain ⟨hfoc1, hother, -, -, -, -, -, -⟩ :=
        cursorStage_frame fbw fbh st ws ev st1 ws1 hcs
      have hw1 : findWin ws1.windows fid = some (w, k) := by
        rw [hother fid hfid]
        exact hw
      have hfoc1' : ws1.focused_window = some fid := by
        rw [hfoc1]
        exact hfoc
      have hdrag := dragStage_spec fbw fbh _ _ ws1 ev.x_rel (-ev.y_rel) fid w k
        hlw hli hfoc1' hw1 hxy
      split at hrun
      · split at hrun
        · exact absurd hrun (by simp)
        · split at hrun
          · obtain ⟨-, hrest⟩ := Prod.mk.injEq .. ▸ (Option.some.injEq .. ▸ hrun)
            obtain ⟨hws, -⟩ := Prod.mk.injEq .. ▸ hrest
            rw [← hws, set_focused_windows]
            exact hdrag
          · obtain ⟨-, hrest⟩ := Prod.mk.injEq .. ▸ (Option.some.injEq .. ▸ hrun)
            obtain ⟨hws, -⟩ := Prod.mk.injEq .. ▸ hrest
            rw [← hws]
            exact hdrag
      · split at hrun
        · next hcond =>
            rw [hli, hlw] at hcond
            simp at hcond
        · obtain ⟨-, hrest⟩ := Prod.mk.injEq .. ▸ (Option.some.injEq .. ▸ hrun)
          obtain ⟨hws, -⟩ := Prod.mk.injEq .. ▸ hrest
          rw [← hws]
          exact hdrag

/-- C9 (witness): `drag_moves_focused_when_left_held` on the concrete
drag run — LEFT held on both records, delta `(5, 0)` — moves window 1
from `(0, 0)` to `(5, 0)`. -/
theorem drag_moves_focused_when_left_held_witness :
    findWin dragResultStore.windows 1 =
      some ({ pos_x := 5, pos_y := 0, width := 10, height := 10,
              has_pipe := true }, WindowKind.Normal) := by
  have h := drag_moves_focused_when_left_held 100 100
    (cursorState 50 50 1 Option.none) (twoWindowStore cursorFar)
    { buttons := 1, x_rel := 5, y_rel := 0 } 1 demoWindow WindowKind.Normal
    (cursorState 55 50 1 Option.none) dragResultStore []
    (by decide) (by decide) rfl (by decide) rfl (by decide) (by decide)
  exact h

/-- C10: leave/enter bookkeeping of the dispatcher. (a) When a Change
record leaves the cursor in contact with no normal window but a window was
in contact on the previous record, the dispatcher sends `MouseLeave` to
that window (here stated for a window that still exists and has a client
pipe; delivery failures are tolerated by the code) and clears the recorded
contact. (b) When no contact was recorded and the record puts the cursor
in contact with a window (with a pipe), the dispatcher sends it
`MouseEnter` at the contact point and records the contact. -/
theorem mouse_leave_and_reenter :
    (∀ (fbw fbh : Nat) (st : MiceCursor) (ws : Windows) (ev : MouseRecord)
        (st1 : MiceCursor) (ws1 : Windows) (old_id : Nat) (ow : MWindow)
        (ok : WindowKind) (st' : MiceCursor) (ws' : Windows)
        (evs : List (Nat × MEvent)),
      st.current_window = some old_id →
      findWin ws.windows old_id = some (ow, ok) →
      ow.has_pipe = true →
      cursorStage fbw fbh st ws ev = some (st1, ws1) →
      ws1.window_in_contact st1.x st1.y st1.width st1.height = some Option.none →
      handle_change fbw fbh st ws ev = some (st', ws', evs) →
      st'.current_window = Option.none ∧ (old_id, MEvent.MouseLeave) ∈ evs) ∧
    (∀ (fbw fbh : Nat) (st : MiceCursor) (ws : Windows) (ev : MouseRecord)
        (st1 : MiceCursor) (ws1 : Windows) (curr_id : Nat)
        (pt : IntersectionPoint) (cw : MWindow) (ck : WindowKind)
        (st' : MiceCursor) (ws' : Windows) (evs : List (Nat × MEvent)),
      st.current_window = Option.none →
      findWin ws.windows curr_id = some (cw, ck) →
      cw.has_pipe = true →
      cursorStage fbw fbh st ws ev = some (st1, ws1) →
      ws1.window_in_contact st1.x st1.y st1.width st1.height =
        some (some (curr_id, pt)) →
      handle_change fbw fbh st ws ev = some (st', ws', evs) →
      (curr_id, MEvent.MouseEnter pt.x pt.y) ∈ evs ∧
        st'.current_window = some curr_id) := by
  constructor
  · intro fbw fbh st ws ev st1 ws1 old_id ow ok st' ws' evs hold how hpipe hcs
      hctc hrun
    simp only [handle_change] at hrun
    split at hrun
    · exact absurd hrun (by simp)
    · next st1' ws1' hcs' =>
      rw [hcs] at hcs'
      obtain ⟨rfl, rfl⟩ := Prod.mk.injEq .. ▸ (Option.some.injEq .. ▸ hcs')
      split at hrun
      · exact absurd hrun (by simp)
      · next contact hctc' =>
        rw [hctc'] at hctc
        have hcn : contact = Option.none := Option.some.injEq .. ▸ hctc
        obtain ⟨-, -, hkeep, -, -, -, -, -⟩ :=
          cursorStage_frame fbw fbh st ws ev st1 ws1 hcs
        obtain ⟨ow1, hw1, hp1, -, -⟩ := hkeep old_id ow ok how
        obtain ⟨ow2, hw2, hp2, -, -⟩ := dragStage_keepAt fbw fbh
          (st.last_buttons.testBit 0) (ev.buttons.testBit 0) ws1 ev.x_rel
          (-ev.y_rel) old_id ow1 ok hw1
        have hsend : (dragStage fbw fbh (st.last_buttons.testBit 0)
            (ev.buttons.testBit 0) ws1 ev.x_rel (-ev.y_rel)).send_event old_id
              MEvent.MouseLeave = some [(old_id, MEvent.MouseLeave)] := by
          unfold Windows.send_event
          rw [hw2]
          simp [MWindow.sendEvent, hp2, hp1, hpipe]
        split at hrun
        · exact absurd hcn (by simp)
        · simp only [hold, hsend, Option.getD_some] at hrun
          split at hrun
          · obtain ⟨hst, hrest⟩ :=
              Prod.mk.injEq .. ▸ (Option.some.injEq .. ▸ hrun)
            obtain ⟨-, hevs⟩ := Prod.mk.injEq .. ▸ hrest
            constructor
            · rw [← hst]
              simp
            · rw [← hevs]
              exact List.mem_append_left _ (by simp)
          · obtain ⟨hst, hrest⟩ :=
              Prod.mk.injEq .. ▸ (Option.some.injEq .. ▸ hrun)
            obtain ⟨-, hevs⟩ := Prod.mk.injEq .. ▸ hrest
            constructor
            · rw [← hst]
              simp
            · rw [← hevs]
              simp
  · intro fbw fbh st ws ev st1 ws1 curr_id pt cw ck st' ws' evs hold hcw hcp hcs
      hctc hrun
    simp only [handle_change] at hrun
    split at hrun
    · exact absurd hrun (by simp)
    · next st1' ws1' hcs' =>
      rw [hcs] at hcs'
      obtain ⟨rfl, rfl⟩ := Prod.mk.injEq .. ▸ (Option.some.injEq .. ▸ hcs')
      split at hrun
      · exact absurd hrun (by simp)
      · next contact hctc' =>
        rw [hctc'] at hctc
        have hcn : contact = some (curr_id, pt) := Option.some.injEq .. ▸ hctc
        obtain ⟨-, -, hkeep, -, -, -, -, -⟩ :=
          cursorStage_frame fbw fbh st ws ev st1 ws1 hcs
        obtain ⟨cw1, hw1, hp1, -, -⟩ := hkeep curr_id cw ck hcw
        obtain ⟨cw2, hw2, hp2, -, -⟩ := dragStage_keepAt fbw fbh
          (st.last_buttons.testBit 0) (ev.buttons.testBit 0) ws1 ev.x_rel
          (-ev.y_rel) curr_id cw1 ck hw1
        have hsend : (dragStage fbw fbh (st.last_buttons.testBit 0)
            (ev.buttons.testBit 0) ws1 ev.x_rel (-ev.y_rel)).send_event curr_id
              (MEvent.MouseEnter pt.x pt.y) =
            some [(curr_id, MEvent.MouseEnter pt.x pt.y)] := by
          unfold Windows.send_event
          rw [hw2]
          simp [MWindow.sendEvent, hp2, hp1, hcp]
        split at hrun
        · next a b =>
            obtain ⟨rfl, rfl⟩ := Prod.mk.injEq .. ▸ (Option.some.injEq .. ▸ hcn)
            simp only [hold, hsend, if_true, List.append_nil] at hrun
            split at hrun
            · obtain ⟨hst, hrest⟩ :=
                Prod.mk.injEq .. ▸ (Option.some.injEq .. ▸ hrun)
              obtain ⟨-, hevs⟩ := Prod.mk.injEq .. ▸ hrest
              constructor
              · rw [← hevs]
                exact List.mem_append_left _ (by simp)
              · rw [← hst]
                simp
            · obtain ⟨hst, hrest⟩ :=
                Prod.mk.injEq .. ▸ (Option.some.injEq .. ▸ hrun)
              obtain ⟨-, hevs⟩ := Prod.mk.injEq .. ▸ hrest
              constructor
              · rw [← hevs]
                simp
              · rw [← hst]
                simp
        · exact absurd hcn (by simp)

/-- C10 (witness): `mouse_leave_and_reenter` on the two concrete runs —
the cursor leaving `demoWindow` (from `(5,5)` to `(55,5)`) and re-entering
it (from `(55,5)` back to `(5,5)`). -/
theorem mouse_leave_and_reenter_witness :
    ((cursorState 55 5 0 Option.none).current_window = Option.none ∧
      ((1 : Nat), MEvent.MouseLeave) ∈
        ([((1 : Nat), MEvent.MouseLeave)] : List (Nat × MEvent))) ∧
    (((1 : Nat), MEvent.MouseEnter 5 5) ∈
        ([((1 : Nat), MEvent.MouseEnter 5 5)] : List (Nat × MEvent)) ∧
      (cursorState 5 5 0 (some 1)).current_window = some 1) := by
  constructor
  · exact mouse_leave_and_reenter.1 100 100 (cursorState 5 5 0 (some 1))
      (twoWindowStore cursorNear) { buttons := 0, x_rel := 50, y_rel := 0 }
      (cursorState 55 5 0 (some 1)) leaveRunStore 1 demoWindow WindowKind.Normal
      (cursorState 55 5 0 Option.none) leaveRunStore
      [((1 : Nat), MEvent.MouseLeave)] rfl rfl rfl (by decide) (by decide)
      (by decide)
  · exact mouse_leave_and_reenter.2 100 100 (cursorState 55 5 0 Option.none)
      (twoWindowStore cursorMid) { buttons := 0, x_rel := -50, y_rel := 0 }
      (cursorState 5 5 0 Option.none) enterRunStore 1
      { top_left_within := (5, 5), bottom_right_within := (9, 9) } demoWindow
      WindowKind.Normal (cursorState 5 5 0 (some 1)) enterRunStore
      [((1 : Nat), MEvent.MouseEnter 5 5)] rfl rfl rfl (by decide) (by decide)
      (by decide)

end OpalWM
